import Mathlib

/-!
Shallow embedding of the DNS Made Easy Go API client (`client.go`) and
verification of properties of its response classification, request signing,
domain-ID caching and record operations.

The HTTP transport and the JSON codec are external collaborators: functions
that in Go perform a request take the decoded response (or the classified
outcome) as an explicit argument, and the JSON parse of a response body is
represented by an optional `Json` value.
-/

set_option autoImplicit false

namespace DnsMadeEasy

/-- A JSON value, as produced by `encoding/json` unmarshalling into
`interface\x7b\x7d`: `null`, booleans, numbers, strings, arrays and objects. -/
inductive Json where
  | null
  | bool (b : Bool)
  | num (n : Int)
  | str (s : String)
  | arr (elems : List Json)
  | obj (fields : List (String × Json))

/-- A Go `error` value: what matters to the client is its message
(`err.Error()`). -/
structure GoErr where
  msg : String
deriving DecidableEq, Repr

/-- Outcome of `checkRespForError`: success, an error return, or a runtime
panic (a failed unchecked type assertion). -/
inductive Outcome where
  | ok
  | err (e : GoErr)
  | goPanic (msg : String)
deriving DecidableEq, Repr

/-- The part of a `resty.Response` that `checkRespForError` inspects: the
result of parsing the body bytes as JSON (`none` when the bytes are not valid
JSON) and the HTTP status code. -/
structure Resp where
  body : Option Json
  statusCode : Int

/-- `json.Unmarshal(resp.Body(), &data)` with `data : map[string]interface\x7b\x7d`:
succeeds exactly when the body is a JSON object (or `null`, which leaves the
map empty). Duplicate keys in the object overwrite earlier ones, so lookups
read the last binding. -/
def unmarshalMap : Option Json → Option (List (String × Json))
  | some (Json.obj fields) => some fields
  | some Json.null => some []
  | _ => none

/-- Go map indexing `data[key]` on the map built by `json.Unmarshal`: the last
binding for `key` wins; a missing key reads as `nil` (`none`). -/
def mapGet (fields : List (String × Json)) (key : String) : Option Json :=
  (fields.reverse.find? fun p => p.1 == key).map Prod.snd

/-- The loop `for idx, err := range resp_errors` accumulating
`fmt.Sprintf("%d: %s\n", idx, err.(string))`; a non-string element makes the
type assertion fail (`Except.error` = panic). -/
def joinErrorStrings : List Json → Nat → String → Except String String
  | [], _, acc => Except.ok acc
  | Json.str s :: rest, idx, acc =>
      joinErrorStrings rest (idx + 1) (acc ++ (toString idx ++ ": " ++ s ++ "\n"))
  | _ :: _, _, _ => Except.error "interface conversion"

/-- `checkRespForError` from `client.go`: propagate a transport error
unchanged; otherwise look for a JSON `error` array in the body; otherwise
check the HTTP status code. Unchecked type assertions
(`data["error"].([]interface\x7b\x7d)` and `resp_errors[i].(string)`) become the
`goPanic` outcome. -/
def checkRespForError (resp : Resp) (err : Option GoErr) : Outcome :=
  -- first bubble up any error passed to us
  match err with
  | some e => Outcome.err e
  | none =>
    -- lastly (reached when no json error is found): the HTTP status check
    let httpCheck : Outcome :=
      if resp.statusCode < 200 ∨ resp.statusCode ≥ 300 then
        Outcome.err ⟨"request returned http error code " ++ toString resp.statusCode⟩
      else
        Outcome.ok
    -- next check for json-formatted errors in the response body
    match unmarshalMap resp.body with
    | none => httpCheck
    | some data =>
      match mapGet data "error" with
      | none => httpCheck
      | some Json.null => httpCheck
      | some (Json.arr resp_errors) =>
        if resp_errors.length > 0 then
          if resp_errors.length = 1 then
            match resp_errors with
            | Json.str s :: _ => Outcome.err ⟨s⟩
            | _ => Outcome.goPanic "interface conversion"
          else
            match joinErrorStrings resp_errors 0 "" with
            | Except.ok msg => Outcome.err ⟨msg⟩
            | Except.error p => Outcome.goPanic p
        else httpCheck
      | some _ => Outcome.goPanic "interface conversion"

/-- The two fixed base URLs of `client.go`. -/
def Sandbox : String := "https://api.sandbox.dnsmadeeasy.com/V2.0/"

/-- Production base URL. -/
def Prod : String := "https://api.dnsmadeeasy.com/V2.0/"

/-- The `Client` struct: credentials, base URL and the lazily populated
`zoneIdCache` (`none` models the Go `nil` map). The embedded resty client is
the external HTTP transport and is not part of the state. -/
structure Client where
  APIToken : String
  APISecret : String
  BaseURL : String
  zoneIdCache : Option (List (String × Int))
deriving DecidableEq, Repr

/-- `GetClient`: constructs a client with a `nil` (unpopulated) cache. -/
def GetClient (APIToken : String) (APISecret : String) (url : String) : Client :=
  ⟨APIToken, APISecret, url, none⟩

/-- The `Domain` struct decoded from the provider's JSON. -/
structure Domain where
  ID : Int
  Name : String
  CreatedAt : Int
  UpdatedAt : Int
  FolderID : Int
  ProcessMulti : Bool
  ActiveThirdParties : List String
  GtdEnabled : Bool
  PendingActionID : Int
deriving DecidableEq, Repr

/-- The paginated envelope returned by `GET /dns/managed/`. -/
structure DomainsResp where
  TotalRecords : Int
  TotalPages : Int
  Domains : List Domain
  CurrentPage : Int
deriving DecidableEq, Repr

/-- The loop in `EnumerateDomains` building `domains[domain.Name] = domain.ID`;
later entries overwrite earlier ones, which `mapGetInt` reflects by reading the
last binding. -/
def domainsToMap (ds : List Domain) : List (String × Int) :=
  ds.map fun d => (d.Name, d.ID)

/-- Go map lookup `m[k]` with comma-ok, on the insertion list of the map:
the last binding for `k` wins. -/
def mapGetInt (m : List (String × Int)) (k : String) : Option Int :=
  (m.reverse.find? fun p => p.1 == k).map Prod.snd

/-- `EnumerateDomains`: the HTTP fetch and classification are external, so the
function takes the classified outcome together with the decoded `DomainsResp`
and either propagates the error or builds the Name→ID map. -/
def EnumerateDomains (resp : Except GoErr DomainsResp) : Except GoErr (List (String × Int)) :=
  match resp with
  | Except.error e => Except.error e
  | Except.ok r => Except.ok (domainsToMap r.Domains)

/-- The error result of `IdForDomain`: either a propagated enumeration
failure (returned at lines 154 and 169 of `client.go`) or the fresh
`errors.New("Domain not found")` (line 180). -/
inductive IdError where
  | enumFailure (e : GoErr)
  | domainNotFound
deriving DecidableEq, Repr

/-- The message of an `IdForDomain` error, as `err.Error()` would show it. -/
def IdError.message : IdError → String
  | IdError.enumFailure e => e.msg
  | IdError.domainNotFound => "Domain not found"

/-- `IdForDomain`: looks the name up in `zoneIdCache`, populating the cache
first when it is `nil` and refreshing it once on a miss when it was already
populated. `enumResp k` is the decoded outcome of the `k`-th
`EnumerateDomains` call made during this invocation. Returns the Go pair
`(id, err)`, the client with its possibly updated cache, and the number of
enumeration calls performed. -/
def IdForDomain (c : Client) (domain : String)
    (enumResp : Nat → Except GoErr DomainsResp) :
    (Int × Option IdError) × Client × Nat :=
  match c.zoneIdCache with
  | none =>
    -- populate the nil cache; justPopulated := true
    match EnumerateDomains (enumResp 0) with
    | Except.error e => ((0, some (IdError.enumFailure e)), c, 1)
    | Except.ok domainMap =>
      let c1 : Client := { c with zoneIdCache := some domainMap }
      match mapGetInt domainMap domain with
      | some zoneId => ((zoneId, none), c1, 1)
      | none =>
        -- justPopulated: no second enumeration before Not-found
        ((0, some IdError.domainNotFound), c1, 1)
  | some cache =>
    match mapGetInt cache domain with
    | some zoneId => ((zoneId, none), c, 0)
    | none =>
      -- not justPopulated: refresh the cache in case our domain exists now
      match EnumerateDomains (enumResp 0) with
      | Except.error e => ((0, some (IdError.enumFailure e)), c, 1)
      | Except.ok domainMap =>
        let c1 : Client := { c with zoneIdCache := some domainMap }
        match mapGetInt domainMap domain with
        | some zoneId => ((zoneId, none), c1, 1)
        | none => ((0, some IdError.domainNotFound), c1, 1)

/-- Path constants from `client.go`. -/
def DNSManagedPath : String := "/dns/managed/"

/-- Records collection path template. -/
def DNSRecordsPath : String := "{domainId}/records"

/-- Single record path template. -/
def DNSRecordPath : String := "{domainId}/records/{recordId}"

/-- The `Record` struct. -/
structure Record where
  Name : String
  ID : Int
  «Type» : String
  Value : String
  Source : Int
  Ttl : Int
  GtdLocation : String
  SourceId : Int
  Failover : Bool
  Monitor : Bool
  HardLink : Bool
  DynamicDns : Bool
  Failed : Bool
  MxLevel : Int
  Priority : Int
  Weight : Int
  Port : Int
deriving DecidableEq, Repr

/-- An HTTP request as the client assembles it: method, path template,
path-parameter substitutions and query string. -/
structure HttpRequest where
  method : String
  path : String
  pathParams : List (String × String)
  queryString : String
deriving DecidableEq, Repr, Inhabited

/-- The query-string building loop of `DeleteRecords`:
`queryString += "&"` when `idx > 0`, then `queryString += "ids=<id>"`. -/
def deleteQueryString : Nat → String → List Int → String
  | _, qs, [] => qs
  | idx, qs, id :: rest =>
      deleteQueryString (idx + 1)
        (qs ++ ((if idx > 0 then "&" else "") ++ ("ids=" ++ toString id))) rest

/-- `DeleteRecords`: builds the `ids=X&ids=Y` query string, issues one DELETE
request, and on a classified error returns the error, otherwise the input ID
list. `classified` is the error component of `checkRespForError` on the
response. Returns the list of requests issued alongside the Go result. -/
def DeleteRecords (c : Client) (domainId : Int) (recordIds : List Int)
    (classified : Option GoErr) : List HttpRequest × Except GoErr (List Int) :=
  let queryString := deleteQueryString 0 "" recordIds
  let req : HttpRequest :=
    { method := "DELETE"
      path := DNSManagedPath ++ DNSRecordPath
      pathParams := [("domainId", toString domainId), ("recordId", "")]
      queryString := queryString }
  match classified with
  | some e => ([req], Except.error e)
  | none => ([req], Except.ok recordIds)

/-- `CreateRecords` (bulk create): issues one POST to
`/dns/managed/{domainId}/records/createMulti`; `resp` packages the classified
outcome with the decoded `[]Record` body. On error the Go code returns
`([]Record\x7b\x7d, err)`; on success the decoded records with no error. -/
def CreateRecords (c : Client) (domainId : Int) (record : List Record)
    (resp : Except GoErr (List Record)) :
    List HttpRequest × (List Record × Option GoErr) :=
  let req : HttpRequest :=
    { method := "POST"
      path := DNSManagedPath ++ DNSRecordsPath ++ "/createMulti"
      pathParams := [("domainId", toString domainId)]
      queryString := "" }
  match resp with
  | Except.error e => ([req], ([], some e))
  | Except.ok newRecords => ([req], (newRecords, none))

/-- Truncation to a 32-bit word. -/
def w32 (x : Nat) : Nat := x % 4294967296

/-- 32-bit left rotation by `n` (for `0 < n < 32`, applied to `x < 2^32`). -/
def rotl32 (n x : Nat) : Nat := w32 (x <<< n) ||| x >>> (32 - n)

/-- Big-endian byte representation of `x` in `n` bytes. -/
def beBytes : Nat → Nat → List Nat
  | 0, _ => []
  | k + 1, x => beBytes k (x / 256) ++ [x % 256]

/-- Groups of four bytes to big-endian 32-bit words. -/
def bytesToWords : List Nat → List Nat
  | a :: b :: c :: d :: rest => (((a * 256 + b) * 256 + c) * 256 + d) :: bytesToWords rest
  | _ => []

/-- Split a byte list into 64-byte blocks, structurally recursive on a fuel
bound (any fuel at least the list length splits the whole list). -/
def chunks64Aux : Nat → List Nat → List (List Nat)
  | 0, _ => []
  | _, [] => []
  | fuel + 1, l => l.take 64 :: chunks64Aux fuel (l.drop 64)

/-- Split a byte list into 64-byte blocks. -/
def chunks64 (l : List Nat) : List (List Nat) :=
  chunks64Aux l.length l

/-- SHA-1 round constants. -/
def sha1K (i : Nat) : Nat :=
  if i < 20 then 0x5A827999
  else if i < 40 then 0x6ED9EBA1
  else if i < 60 then 0x8F1BBCDC
  else 0xCA62C1D6

/-- SHA-1 round functions. -/
def sha1F (i b c d : Nat) : Nat :=
  if i < 20 then (b &&& c) ||| ((b ^^^ 0xFFFFFFFF) &&& d)
  else if i < 40 then b ^^^ c ^^^ d
  else if i < 60 then (b &&& c) ||| (b &&& d) ||| (c &&& d)
  else b ^^^ c ^^^ d

/-- Extend the 16 words of a block to the 80-word message schedule. -/
def sha1Extend (ws : Array Nat) : Array Nat :=
  (List.range 64).foldl
    (fun arr i =>
      arr.push (rotl32 1 (arr.getD (i + 13) 0 ^^^ arr.getD (i + 8) 0 ^^^
        arr.getD (i + 2) 0 ^^^ arr.getD i 0)))
    ws

/-- One SHA-1 compression over a 64-byte block. -/
def sha1Compress (h : Nat × Nat × Nat × Nat × Nat) (block : List Nat) :
    Nat × Nat × Nat × Nat × Nat :=
  let ws := sha1Extend (List.toArray (bytesToWords block))
  let (h0, h1, h2, h3, h4) := h
  let final := (List.range 80).foldl
    (fun st i =>
      let (a, b, c, d, e) := st
      let temp := w32 (rotl32 5 a + sha1F i b c d + e + sha1K i + ws.getD i 0)
      (temp, a, rotl32 30 b, c, d))
    (h0, h1, h2, h3, h4)
  let (a, b, c, d, e) := final
  (w32 (h0 + a), w32 (h1 + b), w32 (h2 + c), w32 (h3 + d), w32 (h4 + e))

/-- SHA-1 of a byte sequence (`crypto/sha1`). -/
def sha1 (msg : List Nat) : List Nat :=
  let padded := msg ++ [0x80] ++ List.replicate ((119 - msg.length % 64) % 64) 0 ++
    beBytes 8 (msg.length * 8)
  let (h0, h1, h2, h3, h4) := (chunks64 padded).foldl sha1Compress
    (0x67452301, 0xEFCDAB89, 0x98BADCFE, 0x10325476, 0xC3D2E1F0)
  beBytes 4 h0 ++ beBytes 4 h1 ++ beBytes 4 h2 ++ beBytes 4 h3 ++ beBytes 4 h4

/-- HMAC-SHA1 (`crypto/hmac` with SHA-1's 64-byte block size): hash an
over-long key, zero-pad, and compute `H(opad ∥ H(ipad ∥ msg))`. -/
def hmacSha1 (key msg : List Nat) : List Nat :=
  let key := if key.length > 64 then sha1 key else key
  let padKey := key ++ List.replicate (64 - key.length) 0
  let ipad := padKey.map fun b => b ^^^ 0x36
  let opad := padKey.map fun b => b ^^^ 0x5C
  sha1 (opad ++ sha1 (ipad ++ msg))

/-- Lowercase hexadecimal digit. -/
def hexDigit (n : Nat) : Char :=
  if n < 10 then Char.ofNat (48 + n) else Char.ofNat (87 + n)

/-- `hex.EncodeToString`: two lowercase hex digits per byte. -/
def hexEncodeToString (bs : List Nat) : String :=
  String.mk (bs.map fun b => [hexDigit (b / 16), hexDigit (b % 16)]).flatten

/-- UTF-8 encoding of one character. -/
def utf8EncodeChar (c : Char) : List Nat :=
  let n := c.toNat
  if n < 0x80 then [n]
  else if n < 0x800 then
    [0xC0 ||| n >>> 6, 0x80 ||| (n &&& 0x3F)]
  else if n < 0x10000 then
    [0xE0 ||| n >>> 12, 0x80 ||| (n >>> 6 &&& 0x3F), 0x80 ||| (n &&& 0x3F)]
  else
    [0xF0 ||| n >>> 18, 0x80 ||| (n >>> 12 &&& 0x3F), 0x80 ||| (n >>> 6 &&& 0x3F),
      0x80 ||| (n &&& 0x3F)]

/-- UTF-8 bytes of a string (Go's `[]byte(s)`). -/
def utf8Bytes (s : String) : List Nat :=
  (s.data.map utf8EncodeChar).flatten

/-- Civil date (year, month, day) from days since the Unix epoch
(Gregorian calendar). -/
def civilFromDays (days : Nat) : Nat × Nat × Nat :=
  let z := days + 719468
  let era := z / 146097
  let doe := z % 146097
  let yoe := (doe - doe / 1460 + doe / 36524 - doe / 146096) / 365
  let y := yoe + era * 400
  let doy := doe - (365 * yoe + yoe / 4 - yoe / 100)
  let mp := (5 * doy + 2) / 153
  let d := doy - (153 * mp + 2) / 5 + 1
  let m := if mp < 10 then mp + 3 else mp - 9
  (if m ≤ 2 then y + 1 else y, m, d)

/-- Abbreviated month names. -/
def monthNames : List String :=
  ["Jan", "Feb", "Mar", "Apr", "May", "Jun", "Jul", "Aug", "Sep", "Oct", "Nov", "Dec"]

/-- Abbreviated weekday names; the Unix epoch fell on a Thursday. -/
def weekdayNames : List String :=
  ["Sun", "Mon", "Tue", "Wed", "Thu", "Fri", "Sat"]

/-- Zero-padded two-digit decimal. -/
def pad2 (n : Nat) : String :=
  if n < 10 then "0" ++ toString n else toString n

/-- `time.Now().UTC().Format(http.TimeFormat)` for an instant given as
seconds since the Unix epoch: layout `Mon, 02 Jan 2006 15:04:05 GMT`. -/
def httpTimeFormat (t : Nat) : String :=
  let days := t / 86400
  let secs := t % 86400
  let ymd := civilFromDays days
  weekdayNames.getD ((days + 4) % 7) "" ++ ", " ++ pad2 ymd.2.2 ++ " " ++
    monthNames.getD (ymd.2.1 - 1) "" ++ " " ++ toString ymd.1 ++ " " ++
    pad2 (secs / 3600) ++ ":" ++ pad2 (secs % 3600 / 60) ++ ":" ++
    pad2 (secs % 60) ++ " GMT"

/-- `addAuthHeaders`: format the current UTC time, HMAC-SHA1 it with the API
secret as key, hex-encode, and emit the three authentication headers in the
order the Go code adds them. `now` is the clock reading in Unix seconds. -/
def addAuthHeaders (c : Client) (now : Nat) : List (String × String) :=
  let requestDate := httpTimeFormat now
  let key := utf8Bytes c.APISecret
  let hmacString := hexEncodeToString (hmacSha1 key (utf8Bytes requestDate))
  [("X-Dnsme-Apikey", c.APIToken),
   ("X-Dnsme-Requestdate", requestDate),
   ("X-Dnsme-Hmac", hmacString)]

theorem string_join_nil : String.join [] = "" := rfl

theorem string_join_cons (a : String) (l : List String) :
    String.join (a :: l) = a ++ String.join l := by
  apply String.ext
  simp

/-- When no structured `error` is found in the body, `checkRespForError`
reduces to the HTTP status check. -/
theorem checkRespForError_reduces (resp : Resp)
    (h : unmarshalMap resp.body = none ∨
      ∃ data, unmarshalMap resp.body = some data ∧
        (mapGet data "error" = none ∨ mapGet data "error" = some Json.null ∨
         mapGet data "error" = some (Json.arr []))) :
    checkRespForError resp none =
      if resp.statusCode < 200 ∨ resp.statusCode ≥ 300 then
        Outcome.err ⟨"request returned http error code " ++ toString resp.statusCode⟩
      else Outcome.ok := by
  rcases h with hb | ⟨data, hdat, herr⟩
  · simp [checkRespForError, hb]
  · rcases herr with he | he | he <;> simp [checkRespForError, hdat, he]

/-- The accumulating loop over an all-string error array produces the
indexed, newline-terminated concatenation starting at index `idx`. -/
theorem joinErrorStrings_map_str (xs : List String) : ∀ (idx : Nat) (acc : String),
    joinErrorStrings (xs.map Json.str) idx acc =
      Except.ok (acc ++ String.join ((List.enumFrom idx xs).map
        fun p => toString p.1 ++ ": " ++ p.2 ++ "\n")) := by
  induction xs with
  | nil => intro idx acc; simp [joinErrorStrings, string_join_nil]
  | cons x t ih =>
    intro idx acc
    simp [joinErrorStrings, List.enumFrom, ih, string_join_cons, String.append_assoc]

theorem domain_not_found_ne_http_msg (s : String) :
    "Domain not found" ≠ "request returned http error code " ++ s := by
  intro h
  have hl := congrArg String.length h
  rw [String.length_append] at hl
  have h1 : ("Domain not found" : String).length = 16 := rfl
  have h2 : ("request returned http error code " : String).length = 33 := rfl
  omega

/-- C2: a body parsing to a JSON object whose `error` field is a non-empty
array of strings classifies as an error whose message is the single string
when there is one element, and otherwise the concatenation of
`"<index>: <element>\n"` over the array, with a trailing newline. -/
theorem checkRespForError_error_array (data : List (String × Json)) (xs : List String)
    (status : Int) (hget : mapGet data "error" = some (Json.arr (xs.map Json.str)))
    (hne : xs ≠ []) :
    checkRespForError ⟨some (Json.obj data), status⟩ none =
      Outcome.err ⟨if xs.length = 1 then xs.headD ""
        else String.join (xs.enum.map fun p => toString p.1 ++ ": " ++ p.2 ++ "\n")⟩ := by
  match xs, hne with
  | [s], _ =>
    simp [checkRespForError, unmarshalMap, hget]
  | s1 :: s2 :: t, _ =>
    have hj := joinErrorStrings_map_str (s1 :: s2 :: t) 0 ""
    simp only [List.map_cons] at hj
    simp [checkRespForError, unmarshalMap, hget, hj, List.enum, List.enumFrom,
      String.empty_append]

/-- Witness for C2 at the spec's own example: body `{"error": ["a","b"]}`
classifies to the message `"0: a\n1: b\n"`. -/
theorem checkRespForError_error_array_witness :
    checkRespForError
        ⟨some (Json.obj [("error", Json.arr [Json.str "a", Json.str "b"])]), 200⟩ none =
      Outcome.err ⟨"0: a\n1: b\n"⟩ := by
  rw [checkRespForError_error_array [("error", Json.arr [Json.str "a", Json.str "b"])]
    ["a", "b"] 200 rfl (by decide)]
  rfl

/-- C3 (amended): with no transport error, when the body fails to parse as a
JSON object, or parses with an `error` field that is absent, null, or an
empty array, classification yields the HTTP-status error message exactly when
the status is outside [200,299], and success otherwise. -/
theorem checkRespForError_status_code (resp : Resp)
    (h : unmarshalMap resp.body = none ∨
      ∃ data, unmarshalMap resp.body = some data ∧
        (mapGet data "error" = none ∨ mapGet data "error" = some Json.null ∨
         mapGet data "error" = some (Json.arr []))) :
    (¬ (200 ≤ resp.statusCode ∧ resp.statusCode < 300) →
      checkRespForError resp none =
        Outcome.err ⟨"request returned http error code " ++ toString resp.statusCode⟩) ∧
    ((200 ≤ resp.statusCode ∧ resp.statusCode < 300) →
      checkRespForError resp none = Outcome.ok) := by
  constructor
  · intro hs
    rw [checkRespForError_reduces resp h, if_pos (by omega)]
  · intro hs
    rw [checkRespForError_reduces resp h, if_neg (by omega)]

/-- Witness for C3 (amended): an unparseable body with status 404 yields the
status-code error message. -/
theorem checkRespForError_status_code_witness :
    checkRespForError ⟨none, 404⟩ none =
      Outcome.err ⟨"request returned http error code 404"⟩ :=
  (checkRespForError_status_code ⟨none, 404⟩ (Or.inl rfl)).1 (by decide)

/-- Counterexample to C3 as stated: the body `{"error": "oops"}` parses as a
JSON object without a non-empty `error` array and the status is 200, yet
classification does not return success — the unchecked type assertion panics. -/
theorem checkRespForError_status_claim_false :
    checkRespForError ⟨some (Json.obj [("error", Json.str "oops")]), 200⟩ none =
      Outcome.goPanic "interface conversion" ∧
    checkRespForError ⟨some (Json.obj [("error", Json.str "oops")]), 200⟩ none ≠
      Outcome.ok := ⟨rfl, by decide⟩

/-- C4: a transport-level error is returned unchanged, and neither the body
nor the status code affects the outcome when one is present. -/
theorem checkRespForError_transport_priority (resp resp2 : Resp) (e : GoErr) :
    checkRespForError resp (some e) = Outcome.err e ∧
    checkRespForError resp (some e) = checkRespForError resp2 (some e) :=
  ⟨rfl, rfl⟩

/-- C9: when the parsed body has an `error` field that is not an array of
strings — a number, an array holding a number, or a mixed array — the
unchecked type assertions fail and `checkRespForError` panics instead of
returning a classified outcome. -/
theorem checkRespForError_panics_on_malformed :
    checkRespForError ⟨some (Json.obj [("error", Json.num 5)]), 200⟩ none =
      Outcome.goPanic "interface conversion" ∧
    checkRespForError ⟨some (Json.obj [("error", Json.arr [Json.num 3])]), 404⟩ none =
      Outcome.goPanic "interface conversion" ∧
    checkRespForError
        ⟨some (Json.obj [("error", Json.arr [Json.str "a", Json.num 1])]), 200⟩ none =
      Outcome.goPanic "interface conversion" :=
  ⟨rfl, rfl, rfl⟩

/-- C1: a lookup on a `nil` cache performs exactly one enumeration and, on a
miss in the freshly populated cache, returns Not-found with no further
enumeration; a lookup on an already-populated cache that misses performs
exactly one re-enumeration before re-checking; two consecutive lookups of a
still-unknown name starting from a fresh client perform exactly two
enumeration calls in total. -/
theorem idForDomain_two_misses (tok sec url domain : String)
    (enum1 enum2 : Nat → Except GoErr DomainsResp) (r1 r2 : DomainsResp)
    (h1 : enum1 0 = Except.ok r1)
    (hm1 : mapGetInt (domainsToMap r1.Domains) domain = none)
    (h2 : enum2 0 = Except.ok r2)
    (hm2 : mapGetInt (domainsToMap r2.Domains) domain = none) :
    IdForDomain (GetClient tok sec url) domain enum1 =
      ((0, some IdError.domainNotFound),
       { APIToken := tok, APISecret := sec, BaseURL := url,
         zoneIdCache := some (domainsToMap r1.Domains) }, 1) ∧
    (∀ (c : Client) (m : List (String × Int)), c.zoneIdCache = some m →
      mapGetInt m domain = none →
      IdForDomain c domain enum2 =
        ((0, some IdError.domainNotFound),
         { c with zoneIdCache := some (domainsToMap r2.Domains) }, 1)) ∧
    (IdForDomain (GetClient tok sec url) domain enum1).2.2 +
      (IdForDomain ((IdForDomain (GetClient tok sec url) domain enum1).2.1)
        domain enum2).2.2 = 2 := by
  have hfirst : IdForDomain (GetClient tok sec url) domain enum1 =
      ((0, some IdError.domainNotFound),
       { APIToken := tok, APISecret := sec, BaseURL := url,
         zoneIdCache := some (domainsToMap r1.Domains) }, 1) := by
    simp [IdForDomain, GetClient, EnumerateDomains, h1, hm1]
  have hsecond : ∀ (c : Client) (m : List (String × Int)), c.zoneIdCache = some m →
      mapGetInt m domain = none →
      IdForDomain c domain enum2 =
        ((0, some IdError.domainNotFound),
         { c with zoneIdCache := some (domainsToMap r2.Domains) }, 1) := by
    intro c m hc hm
    simp [IdForDomain, hc, hm, EnumerateDomains, h2, hm2]
  refine ⟨hfirst, hsecond, ?_⟩
  rw [hfirst, hsecond _ (domainsToMap r1.Domains) rfl hm1]
  rfl

/-- Witness for C1: on a fresh client whose provider account has no domains,
two lookups of the same unknown name make exactly two enumeration calls. -/
theorem idForDomain_two_misses_witness :
    (IdForDomain (GetClient "tok" "sec" Sandbox) "example.testing"
        (fun _ => Except.ok ⟨0, 0, [], 0⟩)).2.2 +
      (IdForDomain ((IdForDomain (GetClient "tok" "sec" Sandbox) "example.testing"
          (fun _ => Except.ok ⟨0, 0, [], 0⟩)).2.1) "example.testing"
        (fun _ => Except.ok ⟨0, 0, [], 0⟩)).2.2 = 2 :=
  (idForDomain_two_misses "tok" "sec" Sandbox "example.testing"
    (fun _ => Except.ok ⟨0, 0, [], 0⟩) (fun _ => Except.ok ⟨0, 0, [], 0⟩)
    ⟨0, 0, [], 0⟩ ⟨0, 0, [], 0⟩ rfl rfl rfl rfl).2.2

/-- C6: after the allowed refresh attempt fails to find the name,
`IdForDomain` returns the distinct `Domain not found` outcome: it is a
different constructor from any propagated enumeration (transport/HTTP)
failure, and its message can never coincide with an HTTP-status classified
error message. -/
theorem idForDomain_notFound_distinct (c : Client) (domain : String)
    (enum : Nat → Except GoErr DomainsResp) (r : DomainsResp)
    (henum : enum 0 = Except.ok r)
    (hmiss : mapGetInt (domainsToMap r.Domains) domain = none) :
    ((c.zoneIdCache = none →
        (IdForDomain c domain enum).1 = (0, some IdError.domainNotFound)) ∧
     (∀ m, c.zoneIdCache = some m → mapGetInt m domain = none →
        (IdForDomain c domain enum).1 = (0, some IdError.domainNotFound))) ∧
    (∀ e : GoErr, IdError.domainNotFound ≠ IdError.enumFailure e) ∧
    (∀ (body : Option Json) (status : Int), unmarshalMap body = none →
      status < 200 ∨ status ≥ 300 →
      checkRespForError ⟨body, status⟩ none ≠
        Outcome.err ⟨IdError.message IdError.domainNotFound⟩) := by
  refine ⟨⟨?_, ?_⟩, ?_, ?_⟩
  · intro hc
    simp [IdForDomain, hc, EnumerateDomains, henum, hmiss]
  · intro m hc hm
    simp [IdForDomain, hc, hm, EnumerateDomains, henum, hmiss]
  · intro e h
    cases h
  · intro body status hb hs heq
    rw [checkRespForError_reduces ⟨body, status⟩ (Or.inl hb)] at heq
    rw [if_pos hs] at heq
    simp only [IdError.message, Outcome.err.injEq, GoErr.mk.injEq] at heq
    exact domain_not_found_ne_http_msg (toString status) heq.symm

/-- Witness for C6: a populated cache missing the name, with a refresh that
also misses, yields the Not-found outcome. -/
theorem idForDomain_notFound_distinct_witness :
    (IdForDomain ⟨"tok", "sec", Sandbox, some []⟩ "example.testing"
        (fun _ => Except.ok ⟨0, 0, [], 0⟩)).1 = (0, some IdError.domainNotFound) :=
  (idForDomain_notFound_distinct ⟨"tok", "sec", Sandbox, some []⟩ "example.testing"
    (fun _ => Except.ok ⟨0, 0, [], 0⟩) ⟨0, 0, [], 0⟩ rfl rfl).1.2 [] rfl rfl

/-- C10: when the underlying enumeration fails — during the initial
population of a `nil` cache or during the refresh on a miss of a populated
cache — `IdForDomain` returns `(0, that error)` and the client, including
its `zoneIdCache`, is exactly as before the call. -/
theorem idForDomain_cache_unchanged_on_error (c : Client) (domain : String)
    (enum : Nat → Except GoErr DomainsResp) (e : GoErr)
    (henum : enum 0 = Except.error e) :
    (c.zoneIdCache = none →
      IdForDomain c domain enum = ((0, some (IdError.enumFailure e)), c, 1)) ∧
    (∀ m, c.zoneIdCache = some m → mapGetInt m domain = none →
      IdForDomain c domain enum = ((0, some (IdError.enumFailure e)), c, 1)) := by
  constructor
  · intro hc
    simp [IdForDomain, hc, EnumerateDomains, henum]
  · intro m hc hm
    simp [IdForDomain, hc, hm, EnumerateDomains, henum]

/-- Witness for C10: a failed population leaves the `nil` cache in place and
propagates the error. -/
theorem idForDomain_cache_unchanged_on_error_witness :
    IdForDomain (GetClient "tok" "sec" Sandbox) "example.testing"
        (fun _ => Except.error ⟨"connection refused"⟩) =
      ((0, some (IdError.enumFailure ⟨"connection refused"⟩)),
        GetClient "tok" "sec" Sandbox, 1) :=
  (idForDomain_cache_unchanged_on_error (GetClient "tok" "sec" Sandbox)
    "example.testing" (fun _ => Except.error ⟨"connection refused"⟩)
    ⟨"connection refused"⟩ rfl).1 rfl

/-- C5: the signer emits exactly the raw API token, the RFC 7231 formatted
UTC date, and the lowercase hex HMAC-SHA1 of the formatted date keyed by the
API secret; the headers are a deterministic function of (secret, token,
time) — two clients agreeing on those produce identical header values. -/
theorem addAuthHeaders_spec (c c2 : Client) (now : Nat)
    (htok : c.APIToken = c2.APIToken) (hsec : c.APISecret = c2.APISecret) :
    addAuthHeaders c now =
      [("X-Dnsme-Apikey", c.APIToken),
       ("X-Dnsme-Requestdate", httpTimeFormat now),
       ("X-Dnsme-Hmac", hexEncodeToString (hmacSha1 (utf8Bytes c.APISecret)
          (utf8Bytes (httpTimeFormat now))))] ∧
    addAuthHeaders c now = addAuthHeaders c2 now := by
  constructor
  · rfl
  · simp [addAuthHeaders, htok, hsec]

/-- Witness for C5: two clients sharing token and secret but differing in
base URL and cache state sign identically at a fixed clock value. -/
theorem addAuthHeaders_spec_witness :
    addAuthHeaders ⟨"token", "secret", Sandbox, none⟩ 784887151 =
      addAuthHeaders ⟨"token", "secret", Prod, some []⟩ 784887151 :=
  (addAuthHeaders_spec ⟨"token", "secret", Sandbox, none⟩
    ⟨"token", "secret", Prod, some []⟩ 784887151 rfl rfl).2

theorem intercalate_go_join (s : String) : ∀ (l : List String) (acc : String),
    String.intercalate.go acc s l = acc ++ String.join (l.map fun y => s ++ y) := by
  intro l
  induction l with
  | nil =>
    intro acc
    simp [String.intercalate.go, string_join_nil, String.append_empty]
  | cons a as ih =>
    intro acc
    simp [String.intercalate.go, ih, string_join_cons, String.append_assoc]

/-- The index-guarded `&` loop of `DeleteRecords` appends one
`&ids=<id>` chunk per remaining ID once past the first element. -/
theorem deleteQueryString_pos (ids : List Int) : ∀ (idx : Nat) (qs : String),
    deleteQueryString (idx + 1) qs ids =
      qs ++ String.join (ids.map fun id => "&" ++ ("ids=" ++ toString id)) := by
  induction ids with
  | nil =>
    intro idx qs
    simp [deleteQueryString, string_join_nil, String.append_empty]
  | cons id rest ih =>
    intro idx qs
    simp [deleteQueryString, ih, string_join_cons, String.append_assoc]

/-- The query string built by `DeleteRecords` is the `&`-join of the
`ids=<id>` encodings in input order. -/
theorem deleteQueryString_eq_intercalate (ids : List Int) :
    deleteQueryString 0 "" ids =
      String.intercalate "&" (ids.map fun id => "ids=" ++ toString id) := by
  cases ids with
  | nil => rfl
  | cons id rest =>
    show deleteQueryString 1 ("" ++ ("" ++ ("ids=" ++ toString id))) rest =
      String.intercalate.go ("ids=" ++ toString id) "&" (rest.map fun i => "ids=" ++ toString i)
    rw [deleteQueryString_pos, intercalate_go_join, String.empty_append, String.empty_append,
      List.map_map]
    rfl

/-- C7: `DeleteRecords` issues exactly one DELETE request whose query string
joins the `ids=<id>` encodings with `&` in input order, and is
atomic-or-fails-together: a classified error yields no deleted IDs, success
yields exactly the input list. -/
theorem deleteRecords_batch (c : Client) (domainId : Int) (recordIds : List Int)
    (classified : Option GoErr) :
    (DeleteRecords c domainId recordIds classified).1.length = 1 ∧
    ((DeleteRecords c domainId recordIds classified).1.headD default).method = "DELETE" ∧
    ((DeleteRecords c domainId recordIds classified).1.headD default).queryString =
      String.intercalate "&" (recordIds.map fun id => "ids=" ++ toString id) ∧
    (∀ e, classified = some e →
      (DeleteRecords c domainId recordIds classified).2 = Except.error e) ∧
    (classified = none →
      (DeleteRecords c domainId recordIds classified).2 = Except.ok recordIds) := by
  cases classified <;>
    simp [DeleteRecords, deleteQueryString_eq_intercalate]

/-- Witness for C7: deleting records 7 and 12 issues one request with query
string `ids=7&ids=12` and returns both IDs on success. -/
theorem deleteRecords_batch_witness :
    ((DeleteRecords (GetClient "tok" "sec" Sandbox) 1 [7, 12] none).1.headD
        default).queryString = "ids=7&ids=12" ∧
    (DeleteRecords (GetClient "tok" "sec" Sandbox) 1 [7, 12] none).2 =
      Except.ok [7, 12] := by
  have h := deleteRecords_batch (GetClient "tok" "sec" Sandbox) 1 [7, 12] none
  exact ⟨by rw [h.2.2.1]; rfl, h.2.2.2.2 rfl⟩

/-- C8: bulk creation has no partial-success shape: success returns exactly
the decoded record list with no error, failure returns an empty record list
with the error, and an error outcome always comes with an empty list. -/
theorem createRecords_all_or_nothing (c : Client) (domainId : Int) (record : List Record)
    (resp : Except GoErr (List Record)) :
    (∀ rs, resp = Except.ok rs →
      (CreateRecords c domainId record resp).2 = (rs, none)) ∧
    (∀ e, resp = Except.error e →
      (CreateRecords c domainId record resp).2 = ([], some e)) ∧
    ((CreateRecords c domainId record resp).2.2 ≠ none →
      (CreateRecords c domainId record resp).2.1 = []) := by
  cases resp <;> simp [CreateRecords]

/-- Witness for C8: a rejected bulk create returns no records alongside the
error. -/
theorem createRecords_all_or_nothing_witness :
    (CreateRecords (GetClient "tok" "sec" Sandbox) 1 []
        (Except.error ⟨"Record name may not be empty"⟩)).2.1 = [] :=
  (createRecords_all_or_nothing (GetClient "tok" "sec" Sandbox) 1 []
    (Except.error ⟨"Record name may not be empty"⟩)).2.2 (by decide)

/-- Known-answer check of the date layout at the RFC 7231 example instant. -/
theorem httpTimeFormat_known_answer :
    httpTimeFormat 784887151 = "Tue, 15 Nov 1994 08:12:31 GMT" ∧
    httpTimeFormat 0 = "Thu, 01 Jan 1970 00:00:00 GMT" := by
  constructor <;> rfl

set_option maxRecDepth 4096

/-- Known-answer check of the SHA-1 implementation (FIPS 180 test vector). -/
theorem sha1_known_answer :
    hexEncodeToString (sha1 (utf8Bytes "abc")) =
      "a9993e364706816aba3e25717850c26c9cd0d89d" := by
  rfl

set_option maxRecDepth 32768

/-- Known-answer check of HMAC-SHA1 (RFC 2202 style test vector). -/
theorem hmacSha1_known_answer :
    hexEncodeToString (hmacSha1 (utf8Bytes "key")
        (utf8Bytes "The quick brown fox jumps over the lazy dog")) =
      "de7c9b85b8b78aa6bc8a7a36f70a90701c9db4d9" := by
  rfl

end DnsMadeEasy
